import Mathlib

/-!
Verification development for the medication reminder and adherence
confirmation state machine of the loveuad backend.

The embedding models, from the source:
  * the `medication_reminders` table rows (`Row`) with their
    `daily_status` state machine (PENDING, REMINDED, FOLLOWUP, TAKEN);
  * the scheduler scan `check_and_call_alarms` from `app.py`
    (snapshot of two status-gated queries, then per-alarm call attempts
    with id-keyed status updates; a failed call attempt is modelled by
    the per-id oracle `ok` returning `false`, matching the per-alarm
    `try/except` which logs and continues);
  * the push-only background scan `AlarmWorker.check_and_send_alarms`
    from `alarm_worker.py`;
  * the voice follow-up webhook handler `medication_twiml` (the
    `call_type == followup` POST branch) from `app.py`, including its
    confirmed-taken database writes and retry-bounded re-prompts;
  * the speech interpreter `understand_response` from `twilio_voice.py`
    with the Gemini classifier modelled as an oracle `Option String`
    (`none` = model unconfigured or the call raised);
  * row creation `add_alarm`, row update `update_alarm`, and the
    midnight `reset_daily_reminders` job from `app.py`.

Clock times of day are modelled as minutes since midnight (0..1439);
the SQL minute comparisons `TO_CHAR(time, HH24:MI) = now` become
equality of these minute values.
-/

namespace LoveUAD

/-- The four values of the `daily_status` column. -/
inductive DailyStatus where
  | PENDING
  | REMINDED
  | FOLLOWUP
  | TAKEN
deriving DecidableEq, Repr

/-- One row of the `medication_reminders` table.  `phone_number = none`
models SQL NULL; `time` and `followup_time` are minutes since midnight;
`last_called` holds the minute of the most recent reminder call. -/
structure Row where
  id : Nat
  code_hash : String
  medication_name : String
  time : Nat
  followup_time : Nat
  phone_number : Option String
  active : Bool
  daily_status : DailyStatus
  last_called : Option Nat
deriving DecidableEq, Repr

/-- One entry of the per-patient `medicationAdherence` list (the append-only
adherence record).  The wall-clock fields `takenAt`/`date` of the source
record are outside the embedding; the remaining fields are kept. -/
structure AdherenceRecord where
  medication : String
  scheduledTime : String
  status : String
  method : String
deriving DecidableEq, Repr

/-- A row of the `patients` table, reduced to the fields the core
touches: the key and the decrypted `medicationAdherence` list. -/
structure Patient where
  code_hash : String
  medicationAdherence : List AdherenceRecord
deriving DecidableEq, Repr

/-- The shared mutable state of the core: the reminder store plus the
patients table holding the adherence records. -/
structure AppState where
  reminders : List Row
  patients : List Patient
deriving Repr

/-- SQL guard: `phone_number` IS NOT NULL and differs from the empty string. -/
def hasPhone (r : Row) : Bool :=
  match r.phone_number with
  | none => false
  | some p => p != ""

/-- Python `s[-n:]`: the last `n` elements. -/
def lastN (n : Nat) (l : List α) : List α := l.drop (l.length - n)

/-- `followup_time` computation of the creation endpoints:
`datetime.strptime(time) + timedelta(minutes=10)` rendered back as
`HH:MM`, i.e. addition of 10 minutes modulo one day. -/
def followupOf (t : Nat) : Nat := (t + 10) % 1440

/-- `POST /api/alarms` (`add_alarm` in `app.py`): inserts one active
PENDING row whose `followup_time` is the scheduled time plus 10
minutes. -/
def add_alarm (ch med : String) (t : Nat) (phone : Option String)
    (newId : Nat) (rows : List Row) : List Row :=
  rows ++ [{ id := newId, code_hash := ch, medication_name := med,
             time := t, followup_time := followupOf t,
             phone_number := phone, active := true,
             daily_status := DailyStatus.PENDING, last_called := none }]

/-- The JSON body of `PUT /api/alarms/<id>`: each field present in the
request contributes one `SET` clause. -/
structure AlarmUpdate where
  medication_name : Option String
  time : Option Nat
  active : Option Bool
deriving Repr

/-- `PUT /api/alarms/<id>` (`update_alarm` in `app.py`): builds the
`SET` list from the fields present and runs
`UPDATE medication_reminders SET ... WHERE id = %s`.  Note that the
source never adds a `followup_time` clause, in particular not when
`time` is updated.  An empty field set returns 400 before any query. -/
def update_alarm (d : AlarmUpdate) (alarm_id : Nat) (rows : List Row) :
    List Row :=
  if d.medication_name.isNone && d.time.isNone && d.active.isNone then
    rows
  else
    rows.map fun r =>
      if r.id == alarm_id then
        { r with
          medication_name := d.medication_name.getD r.medication_name,
          time := d.time.getD r.time,
          active := d.active.getD r.active }
      else r

/-- The `UPDATE medication_reminders SET daily_status = TAKEN WHERE
code_hash = %s AND medication_name = %s` write of the confirmed-taken
branch of `medication_twiml`: every row matching patient and medication
name is set to TAKEN, with no condition on its current status. -/
def takenWrite (ch med : String) (rows : List Row) : List Row :=
  rows.map fun r =>
    if r.code_hash == ch && r.medication_name == med then
      { r with daily_status := DailyStatus.TAKEN }
    else r

/-- `reset_daily_reminders` in `app.py`, run by APScheduler at 00:00:
`UPDATE medication_reminders SET daily_status = PENDING` with no
WHERE clause; it touches nothing else. -/
def reset_daily_reminders (s : AppState) : AppState :=
  { s with reminders :=
      s.reminders.map fun r => { r with daily_status := DailyStatus.PENDING } }

/-! ## Scheduler scan: `check_and_call_alarms` (`app.py`) -/

/-- CHECK 1 of `check_and_call_alarms`: rows due for the first
(reminder) call — `active`, scheduled minute equal to now, phone number
present and non-empty, and `daily_status = PENDING`. -/
def dueForReminder (now : Nat) (r : Row) : Bool :=
  r.active && r.time == now && hasPhone r
    && r.daily_status == DailyStatus.PENDING

/-- CHECK 2 of `check_and_call_alarms`: rows due for the follow-up call
— `active`, `followup_time` minute equal to now, phone present, and
`daily_status = REMINDED`. -/
def dueForFollowup (now : Nat) (r : Row) : Bool :=
  r.active && r.followup_time == now && hasPhone r
    && r.daily_status == DailyStatus.REMINDED

/-- The status write of a successful reminder call:
`SET last_called = now, daily_status = REMINDED`. -/
def remUpd (now : Nat) (r : Row) : Row :=
  { r with daily_status := DailyStatus.REMINDED, last_called := some now }

/-- The status write of a successful follow-up call:
`SET daily_status = FOLLOWUP`. -/
def folUpd (r : Row) : Row :=
  { r with daily_status := DailyStatus.FOLLOWUP }

/-- `UPDATE medication_reminders SET ... WHERE id = %s`: applies `f` to
every row carrying the given id. -/
def updateById (i : Nat) (f : Row → Row) (rows : List Row) : List Row :=
  rows.map fun r => if r.id == i then f r else r

/-- The first `for alarm in reminder_alarms` loop.  `creds` models the
`if account_sid and auth_token and twilio_phone` guard; `ok a.id` models
whether `client.calls.create` succeeded for that alarm (an exception is
caught by the per-alarm `except`, which logs and continues with the next
alarm, performing no status write).  The push attempt inside the loop
has its own `try/except` and does not influence the status write. -/
def processReminders (now : Nat) (creds : Bool) (ok : Nat → Bool) :
    List Row → List Row → List Row
  | [], rows => rows
  | a :: rest, rows =>
      processReminders now creds ok rest
        (if creds && ok a.id then updateById a.id (remUpd now) rows else rows)

/-- The second `for alarm in followup_alarms` loop, same failure
handling as `processReminders`. -/
def processFollowups (creds : Bool) (ok : Nat → Bool) :
    List Row → List Row → List Row
  | [], rows => rows
  | a :: rest, rows =>
      processFollowups creds ok rest
        (if creds && ok a.id then updateById a.id folUpd rows else rows)

/-- `GET|POST /api/alarms/check-and-call` (`check_and_call_alarms` in
`app.py`): the two status-gated queries are snapshotted first, then the
reminder loop runs, then the follow-up loop. -/
def check_and_call_alarms (now : Nat) (creds : Bool) (ok : Nat → Bool)
    (rows : List Row) : List Row :=
  let reminder_alarms := rows.filter (dueForReminder now)
  let followup_alarms := rows.filter (dueForFollowup now)
  processFollowups creds ok followup_alarms
    (processReminders now creds ok reminder_alarms rows)

/-- One tick argument of the recurring scan. -/
structure TickIn where
  now : Nat
  creds : Bool
  ok : Nat → Bool

/-- A sequence of scheduler scans. -/
def runTicks : List TickIn → List Row → List Row
  | [], rows => rows
  | t :: ts, rows => runTicks ts (check_and_call_alarms t.now t.creds t.ok rows)

/-- The net effect of one scan on a single row (given unique ids), used
through `check_and_call_eq_map` below: a row due for a reminder whose
call attempt went through gets the REMINDED write, a row due for a
follow-up gets the FOLLOWUP write, all other rows are untouched. -/
def tickRow (now : Nat) (creds ok : Bool) (r : Row) : Row :=
  if creds && ok && dueForReminder now r then remUpd now r
  else if creds && ok && dueForFollowup now r then folUpd r
  else r

/-! ## Push-only worker scan: `AlarmWorker.check_and_send_alarms`
(`alarm_worker.py`) -/

/-- `AlarmWorker.check_and_send_alarms`: selects
`DISTINCT code_hash, medication_name, time` over the active rows whose
scheduled minute matches now — with no condition on `daily_status` and
no condition on the phone number — groups them by user and sends one
push per user.  It performs no write to `medication_reminders`; the
returned pair is (the distinct due triples driving the pushes, the
unchanged rows). -/
def check_and_send_alarms (now : Nat) (rows : List Row) :
    List (String × String × Nat) × List Row :=
  (((rows.filter fun r => r.time == now && r.active).map
      fun r => (r.code_hash, r.medication_name, r.time)).dedup,
   rows)

/-! ## Speech interpreter: `understand_response` (`twilio_voice.py`) -/

/-- The classifier output `{yes, no, unclear}`. -/
inductive Interp where
  | yes
  | no
  | unclear
deriving DecidableEq, Repr

/-- Python `s.lower()`, restricted as in the source to ASCII case
folding: lowercase every character. -/
def strLower (s : String) : String := String.mk (s.data.map Char.toLower)

/-- Drop leading and trailing whitespace from a character list. -/
def trimChars (l : List Char) : List Char :=
  ((l.dropWhile Char.isWhitespace).reverse.dropWhile Char.isWhitespace).reverse

/-- Python `s.strip()`. -/
def strTrim (s : String) : String := String.mk (trimChars s.data)

/-- Accumulator-based whitespace splitter behind `pySplit`. -/
def pySplitChars (acc : List Char) : List Char → List String
  | [] => if acc.isEmpty then [] else [String.mk acc.reverse]
  | c :: cs =>
      if c.isWhitespace then
        if acc.isEmpty then pySplitChars [] cs
        else String.mk acc.reverse :: pySplitChars [] cs
      else pySplitChars (c :: acc) cs

/-- Python `s.split()`: split on runs of whitespace, no empty pieces. -/
def pySplit (s : String) : List String := pySplitChars [] s.data

/-- All suffixes of a character list, longest first. -/
def suffixes : List Char → List (List Char)
  | [] => [[]]
  | c :: cs => (c :: cs) :: suffixes cs

/-- Python `needle in hay` on strings: substring containment. -/
def isSubstring (needle hay : String) : Bool :=
  (suffixes hay.data).any fun t => needle.data.isPrefixOf t

/-- `yes_keywords` of `understand_response`. -/
def yes_keywords : List String :=
  ["yes", "yeah", "yep", "i took it", "taken", "i have", "already took",
   "done"]

/-- `no_keywords` of `understand_response`. -/
def no_keywords : List String :=
  ["no", "not yet", "haven\x27t", "didn\x27t take", "forgot", "later"]

/-- `understand_response(speech_text)` of `twilio_voice.py`.  The
Gemini call is modelled by the oracle `gemini : Option String`: `some t`
is the text of a successful `generate_content` call, `none` stands for
`gemini_model` being unconfigured or the call raising (both fall through
to `unclear`).  The source lowercases and strips the utterance, checks
the affirmative keyword list first, then the negative one, and only then
consults the model; the model answer is stripped and lowercased and
accepted only when it is one of the three labels. -/
def understand_response (gemini : Option String) (speech_text : String) :
    Interp :=
  if speech_text = "" then Interp.unclear
  else
    let speech_lower := strTrim (strLower speech_text)
    if yes_keywords.any fun w => isSubstring w speech_lower then Interp.yes
    else if no_keywords.any fun w => isSubstring w speech_lower then Interp.no
    else
      match gemini with
      | some t =>
          let answer := strLower (strTrim t)
          if answer == "yes" then Interp.yes
          else if answer == "no" then Interp.no
          else if answer == "unclear" then Interp.unclear
          else Interp.unclear
      | none => Interp.unclear

/-! ## Voice follow-up webhook: `medication_twiml` (`app.py`),
`call_type == followup` branch -/

/-- What the handler asks Twilio to do next. -/
inductive TwimlAction where
  | sayTaken
  | sayDeclined
  | reprompt (retry : Nat)
  | endSilent
  | promptInitial
deriving DecidableEq, Repr

/-- `yes_words` of the `medication_twiml` follow-up branch. -/
def twimlYesWords : List String :=
  ["yes", "yep", "yeah", "yah", "correct", "right", "sure", "okay", "ok",
   "affirmative", "absolutely", "indeed", "definitely", "certainly",
   "i did", "i have", "taken", "done", "finished", "took"]

/-- The negative word list of the `medication_twiml` follow-up branch,
matched against the whitespace-split tokens of the utterance. -/
def twimlNoWords : List String :=
  ["no", "nope", "not", "haven\x27t", "didn\x27t", "forgot"]

/-- `any(word in speech_result for word in yes_words)`. -/
def twimlIsYes (speech_lower : String) : Bool :=
  twimlYesWords.any fun w => isSubstring w speech_lower

/-- `any(word in speech_result.split() for word in [...])`. -/
def twimlIsNo (speech_lower : String) : Bool :=
  twimlNoWords.any fun w => (pySplit speech_lower).contains w

/-- The confirmed-taken database work of the follow-up branch: fetch the
patient (`fetchone` on `code_hash`), append one adherence record with
method `phone_followup`, keep the last 270 entries, write the patient
rows back, and run the unconditional `takenWrite` on the reminder
rows. -/
def twimlTakenBranch (ch med t : String) (rows : List Row)
    (patients : List Patient) : TwimlAction × List Row × List Patient :=
  match patients.find? fun p => p.code_hash == ch with
  | some patient =>
      let newAdh := lastN 270 (patient.medicationAdherence ++
        [{ medication := med, scheduledTime := t, status := "taken",
           method := "phone_followup" }])
      (TwimlAction.sayTaken,
       takenWrite ch med rows,
       patients.map fun p =>
         if p.code_hash == ch then { p with medicationAdherence := newAdh }
         else p)
  | none => (TwimlAction.endSilent, rows, patients)

/-- The `call_type == followup` part of `medication_twiml`.
`speech_result` is `request.form.get(SpeechResult)` (`none` or an
empty string mean a GET or a form without speech, which serves the
initial question prompt with `retry=0`).  A spoken response runs, in
source order: the substring check against `yes_words` (leading to the
taken branch), the token check against the negative words (goodbye, no
write), and otherwise a re-prompt with `retry+1` while `retry_count <
2`, or an empty TwiML response — the call simply ends — once the retry
budget is exhausted.  Only the taken branch writes to the database. -/
def medication_twiml_followup (speech_result : Option String)
    (retry_count : Nat) (ch med t : String) (rows : List Row)
    (patients : List Patient) : TwimlAction × List Row × List Patient :=
  match speech_result with
  | some s =>
      if s = "" then (TwimlAction.promptInitial, rows, patients)
      else
        let speech := strLower s
        if twimlIsYes speech then twimlTakenBranch ch med t rows patients
        else if twimlIsNo speech then (TwimlAction.sayDeclined, rows, patients)
        else if retry_count < 2 then
          (TwimlAction.reprompt (retry_count + 1), rows, patients)
        else (TwimlAction.endSilent, rows, patients)
  | none => (TwimlAction.promptInitial, rows, patients)

/-- Number of re-prompts produced by driving the follow-up webhook over
a sequence of utterances, starting from a given retry counter: each
`reprompt k` answer makes Twilio gather the next utterance and post it
back with `retry = k`; any other action ends the call.  The handler is
invoked with empty stores, which only the (terminal) taken branch would
read. -/
def countReprompts (retry : Nat) : List String → Nat
  | [] => 0
  | s :: rest =>
      match (medication_twiml_followup (some s) retry ("") ("") ("") [] []).1 with
      | TwimlAction.reprompt k => 1 + countReprompts k rest
      | _ => 0

/-- Status of the unique row carrying a given id, if any. -/
def statusAt (rows : List Row) (i : Nat) : Option DailyStatus :=
  (rows.find? fun r => r.id == i).map fun r => r.daily_status

/-! ## Helper lemmas -/

theorem remUpd_id (now : Nat) (r : Row) : (remUpd now r).id = r.id := rfl

theorem folUpd_id (r : Row) : (folUpd r).id = r.id := rfl

theorem remUpd_idem (now : Nat) (r : Row) :
    remUpd now (remUpd now r) = remUpd now r := rfl

theorem folUpd_idem (r : Row) : folUpd (folUpd r) = folUpd r := rfl

theorem processReminders_eq_map (now : Nat) (c : Bool) (ok : Nat → Bool) :
    ∀ (alarms rows : List Row),
      processReminders now c ok alarms rows =
        rows.map fun r =>
          if c && ok r.id && alarms.any (fun a => a.id == r.id) then remUpd now r
          else r := by
  intro alarms
  induction alarms with
  | nil =>
      intro rows
      simp [processReminders]
  | cons a rest ih =>
      intro rows
      show processReminders now c ok rest
          (if c && ok a.id then updateById a.id (remUpd now) rows else rows) = _
      by_cases h : (c && ok a.id) = true
      · rw [if_pos h, ih, updateById, List.map_map]
        apply List.map_congr_left
        intro r _
        show (fun r => if c && ok r.id && rest.any (fun a => a.id == r.id)
            then remUpd now r else r) (if r.id == a.id then remUpd now r else r) = _
        by_cases hid : r.id = a.id
        · obtain ⟨hc, hoka⟩ : c = true ∧ ok a.id = true := by simpa using h
          have hok : ok r.id = true := by rw [hid]; exact hoka
          simp [hid, hc, hok, hoka, List.any_cons, remUpd_id, remUpd_idem]
        · have hid' : (r.id == a.id) = false := by simpa using hid
          have hid'' : (a.id == r.id) = false := by
            simp only [beq_eq_false_iff_ne, ne_eq]
            exact fun hh => hid hh.symm
          simp [hid', hid'', List.any_cons]
      · rw [if_neg h, ih]
        apply List.map_congr_left
        intro r _
        have h' : (c && ok a.id) = false := by simpa using h
        by_cases hid : a.id = r.id
        · have hok : (c && ok r.id) = false := by rw [← hid]; exact h'
          simp only [List.any_cons, hid]
          cases hc : c with
          | false => simp
          | true =>
              have : ok r.id = false := by
                have := hok; rw [hc] at this; simpa using this
              simp [this]
        · have hid'' : (a.id == r.id) = false := by simpa using hid
          simp [hid'', List.any_cons]

theorem processFollowups_eq_map (c : Bool) (ok : Nat → Bool) :
    ∀ (alarms rows : List Row),
      processFollowups c ok alarms rows =
        rows.map fun r =>
          if c && ok r.id && alarms.any (fun a => a.id == r.id) then folUpd r
          else r := by
  intro alarms
  induction alarms with
  | nil =>
      intro rows
      simp [processFollowups]
  | cons a rest ih =>
      intro rows
      show processFollowups c ok rest
          (if c && ok a.id then updateById a.id folUpd rows else rows) = _
      by_cases h : (c && ok a.id) = true
      · rw [if_pos h, ih, updateById, List.map_map]
        apply List.map_congr_left
        intro r _
        show (fun r => if c && ok r.id && rest.any (fun a => a.id == r.id)
            then folUpd r else r) (if r.id == a.id then folUpd r else r) = _
        by_cases hid : r.id = a.id
        · obtain ⟨hc, hoka⟩ : c = true ∧ ok a.id = true := by simpa using h
          have hok : ok r.id = true := by rw [hid]; exact hoka
          simp [hid, hc, hok, hoka, List.any_cons, folUpd_id, folUpd_idem]
        · have hid' : (r.id == a.id) = false := by simpa using hid
          have hid'' : (a.id == r.id) = false := by
            simp only [beq_eq_false_iff_ne, ne_eq]
            exact fun hh => hid hh.symm
          simp [hid', hid'', List.any_cons]
      · rw [if_neg h, ih]
        apply List.map_congr_left
        intro r _
        have h' : (c && ok a.id) = false := by simpa using h
        by_cases hid : a.id = r.id
        · have hok : (c && ok r.id) = false := by rw [← hid]; exact h'
          simp only [List.any_cons, hid]
          cases hc : c with
          | false => simp
          | true =>
              have : ok r.id = false := by
                have := hok; rw [hc] at this; simpa using this
              simp [this]
        · have hid'' : (a.id == r.id) = false := by simpa using hid
          simp [hid'', List.any_cons]

theorem filter_any_id_of_nodup (p : Row → Bool) (rows : List Row)
    (h : (rows.map Row.id).Nodup) (r : Row) (hr : r ∈ rows) :
    ((rows.filter p).any fun a => a.id == r.id) = p r := by
  cases hp : p r with
  | true =>
      have hm : r ∈ rows.filter p := List.mem_filter.mpr ⟨hr, hp⟩
      apply List.any_eq_true.mpr
      exact ⟨r, hm, by simp⟩
  | false =>
      apply Bool.eq_false_iff.mpr
      intro hany
      obtain ⟨a, ha, hid⟩ := List.any_eq_true.mp hany
      obtain ⟨ha', hpa⟩ := List.mem_filter.mp ha
      have : a = r := List.inj_on_of_nodup_map h ha' hr (by simpa using hid)
      rw [this] at hpa
      rw [hpa] at hp
      exact Bool.noConfusion hp

theorem due_reminder_not_followup (now : Nat) (r : Row)
    (h : dueForReminder now r = true) : dueForFollowup now r = false := by
  unfold dueForReminder at h
  unfold dueForFollowup
  obtain ⟨⟨⟨-, -⟩, -⟩, hst⟩ :
      ((r.active = true ∧ (r.time == now) = true) ∧ hasPhone r = true) ∧
        (r.daily_status == DailyStatus.PENDING) = true := by simpa using h
  have : r.daily_status = DailyStatus.PENDING := by simpa using hst
  simp [this]

theorem check_and_call_eq_map (now : Nat) (c : Bool) (ok : Nat → Bool)
    (rows : List Row) (h : (rows.map Row.id).Nodup) :
    check_and_call_alarms now c ok rows =
      rows.map fun r => tickRow now c (ok r.id) r := by
  show processFollowups c ok (rows.filter (dueForFollowup now))
      (processReminders now c ok (rows.filter (dueForReminder now)) rows) =
    rows.map fun r => tickRow now c (ok r.id) r
  rw [processReminders_eq_map, processFollowups_eq_map, List.map_map]
  apply List.map_congr_left
  intro r hr
  show (fun r => if c && ok r.id && (rows.filter (dueForFollowup now)).any
        (fun a => a.id == r.id) then folUpd r else r)
      (if c && ok r.id && (rows.filter (dueForReminder now)).any
        (fun a => a.id == r.id) then remUpd now r else r) = _
  rw [filter_any_id_of_nodup (dueForReminder now) rows h r hr]
  beta_reduce
  unfold tickRow
  by_cases h1 : (c && ok r.id && dueForReminder now r) = true
  · rw [if_pos h1]
    have hdr : dueForReminder now r = true := by
      obtain ⟨-, h2⟩ := Bool.and_eq_true_iff.mp h1
      exact h2
    have hdf : dueForFollowup now r = false := due_reminder_not_followup now r hdr
    have hfol : ((rows.filter (dueForFollowup now)).any
        fun a => a.id == (remUpd now r).id) = dueForFollowup now r := by
      rw [remUpd_id]
      exact filter_any_id_of_nodup (dueForFollowup now) rows h r hr
    rw [hfol, hdf]
    simp [h1]
  · rw [if_neg h1]
    rw [filter_any_id_of_nodup (dueForFollowup now) rows h r hr]
    simp [h1]


theorem tickRow_id (now : Nat) (c ok : Bool) (r : Row) :
    (tickRow now c ok r).id = r.id := by
  unfold tickRow
  by_cases h1 : (c && ok && dueForReminder now r) = true
  · rw [if_pos h1]; rfl
  · rw [if_neg h1]
    by_cases h2 : (c && ok && dueForFollowup now r) = true
    · rw [if_pos h2]; rfl
    · rw [if_neg h2]

theorem tickRow_failed (now : Nat) (c : Bool) (r : Row) :
    tickRow now c false r = r := by
  unfold tickRow
  simp

theorem tickRow_of_followup (now : Nat) (c ok : Bool) (r : Row)
    (h : r.daily_status = DailyStatus.FOLLOWUP) :
    tickRow now c ok r = r := by
  unfold tickRow dueForReminder dueForFollowup
  simp [h]

theorem tickRow_of_taken (now : Nat) (c ok : Bool) (r : Row)
    (h : r.daily_status = DailyStatus.TAKEN) :
    tickRow now c ok r = r := by
  unfold tickRow dueForReminder dueForFollowup
  simp [h]

theorem check_and_call_ids (now : Nat) (c : Bool) (ok : Nat → Bool)
    (rows : List Row) :
    (check_and_call_alarms now c ok rows).map Row.id = rows.map Row.id := by
  show (processFollowups c ok (rows.filter (dueForFollowup now))
      (processReminders now c ok (rows.filter (dueForReminder now)) rows)).map Row.id
    = rows.map Row.id
  rw [processReminders_eq_map, processFollowups_eq_map, List.map_map, List.map_map]
  apply List.map_congr_left
  intro r _
  show Row.id ((fun r => if c && ok r.id && _ then folUpd r else r)
      ((fun r => if c && ok r.id && _ then remUpd now r else r) r)) = r.id
  beta_reduce
  by_cases h1 : (c && ok r.id &&
      ((rows.filter (dueForReminder now)).any fun a => a.id == r.id)) = true
  · rw [if_pos h1]
    by_cases h2 : (c && ok (remUpd now r).id &&
        ((rows.filter (dueForFollowup now)).any fun a => a.id == (remUpd now r).id)) = true
    · rw [if_pos h2]; rfl
    · rw [if_neg h2]; rfl
  · rw [if_neg h1]
    by_cases h2 : (c && ok r.id &&
        ((rows.filter (dueForFollowup now)).any fun a => a.id == r.id)) = true
    · rw [if_pos h2]; rfl
    · rw [if_neg h2]

theorem statusAt_check (now : Nat) (c : Bool) (ok : Nat → Bool)
    (rows : List Row) (h : (rows.map Row.id).Nodup) (i : Nat) :
    statusAt (check_and_call_alarms now c ok rows) i =
      (rows.find? (fun r => r.id == i)).map
        fun r => (tickRow now c (ok r.id) r).daily_status := by
  unfold statusAt
  rw [check_and_call_eq_map now c ok rows h]
  rw [List.find?_map]
  have : ((fun r : Row => r.id == i) ∘ fun r => tickRow now c (ok r.id) r)
      = fun r : Row => r.id == i := by
    funext r
    show ((tickRow now c (ok r.id) r).id == i) = (r.id == i)
    rw [tickRow_id]
  rw [this, Option.map_map]
  rfl


theorem runTicks_followup_fixed (ts : List TickIn) :
    ∀ (rows : List Row), (rows.map Row.id).Nodup → ∀ (i : Nat),
      statusAt rows i = some DailyStatus.FOLLOWUP →
      statusAt (runTicks ts rows) i = some DailyStatus.FOLLOWUP := by
  induction ts with
  | nil => intro rows _ i hs; exact hs
  | cons t ts ih =>
      intro rows h i hs
      show statusAt (runTicks ts (check_and_call_alarms t.now t.creds t.ok rows)) i
        = some DailyStatus.FOLLOWUP
      have hnodup : ((check_and_call_alarms t.now t.creds t.ok rows).map Row.id).Nodup := by
        rw [check_and_call_ids]; exact h
      apply ih _ hnodup
      rw [statusAt_check t.now t.creds t.ok rows h i]
      unfold statusAt at hs
      obtain ⟨r, hfind, hstat⟩ : ∃ r, (rows.find? fun r => r.id == i) = some r ∧
          r.daily_status = DailyStatus.FOLLOWUP := by
        cases hf : rows.find? fun r => r.id == i with
        | none => rw [hf] at hs; exact Option.noConfusion hs
        | some r =>
            rw [hf] at hs
            exact ⟨r, rfl, by simpa using hs⟩
      rw [hfind]
      show some (tickRow t.now t.creds (t.ok r.id) r).daily_status = _
      rw [tickRow_of_followup _ _ _ _ hstat, hstat]


/-! ## C4 -/

/-- C4 (code bug witness): an alarm created for 09:00 (minute 540) gets
`followup_time` 09:10 (minute 550); a `PUT /api/alarms/1` update moving
`time` to 12:00 (minute 720) leaves `followup_time` at 550, while the
claimed invariant demands `followupOf 720 = 730`.  The invariant
`followup_time = scheduled_time + 10` holds after creation and is broken
by `update_alarm`. -/
theorem c4_code_bug :
    ((add_alarm ("p") ("med") 540 (some ("5551234")) 1 []).map
        fun r => (r.time, r.followup_time)) = [(540, 550)]
    ∧ ((update_alarm { medication_name := none, time := some 720,
                       active := none } 1
          (add_alarm ("p") ("med") 540 (some ("5551234")) 1 [])).map
        fun r => (r.time, r.followup_time)) = [(720, 550)]
    ∧ followupOf 720 = 730
    ∧ (550 : Nat) ≠ 730 := by decide

/-! ## C9 -/

/-- C9: the daily reset job unconditionally sets every reminder row to
PENDING regardless of its current status, changes no other field of any
row, and leaves the patients table — hence every adherence record —
untouched. -/
theorem c9_reset_unconditional_and_frame (s : AppState) (i : Nat) :
    (reset_daily_reminders s).patients = s.patients
    ∧ (reset_daily_reminders s).reminders.length = s.reminders.length
    ∧ (reset_daily_reminders s).reminders.get? i
        = (s.reminders.get? i).map
            fun r => { r with daily_status := DailyStatus.PENDING } := by
  refine ⟨rfl, by simp [reset_daily_reminders], ?_⟩
  unfold reset_daily_reminders
  simp

/-- A concrete state for exercising C9: one TAKEN row, one FOLLOWUP
row, and a patient with one adherence record. -/
def c9State : AppState :=
  { reminders :=
      [{ id := 31, code_hash := "p9", medication_name := "m9",
         time := 540, followup_time := 550, phone_number := some ("5550031"),
         active := true, daily_status := DailyStatus.TAKEN,
         last_called := some 540 },
       { id := 32, code_hash := "p9", medication_name := "m9b",
         time := 600, followup_time := 610, phone_number := some ("5550031"),
         active := false, daily_status := DailyStatus.FOLLOWUP,
         last_called := some 600 }],
    patients :=
      [{ code_hash := "p9",
         medicationAdherence :=
           [{ medication := "m9", scheduledTime := "09:00",
              status := "taken", method := "phone_followup" }] }] }

/-- Witness for C9 at the concrete state: the TAKEN row is reset to
PENDING with its other fields intact, and the adherence records are
untouched. -/
theorem c9_reset_unconditional_and_frame_witness :
    (reset_daily_reminders c9State).patients = c9State.patients
    ∧ (reset_daily_reminders c9State).reminders.length
        = c9State.reminders.length
    ∧ (reset_daily_reminders c9State).reminders.get? 0
        = (c9State.reminders.get? 0).map
            (fun r => { r with daily_status := DailyStatus.PENDING }) :=
  c9_reset_unconditional_and_frame c9State 0

/-! ## C1 -/

/-- A reminder row used to exhibit the unconditional confirmed-taken
write: it matches patient `p1` and medication `statin` but is still
PENDING, i.e. not in either expected prior status (REMINDED or
FOLLOWUP) of the confirmed-taken transition. -/
def c1Row : Row :=
  { id := 10, code_hash := "p1", medication_name := "statin",
    time := 600, followup_time := 610, phone_number := some ("5550000"),
    active := true, daily_status := DailyStatus.PENDING,
    last_called := none }

/-- C1 is false as stated: the confirmed-taken write of
`medication_twiml` (`UPDATE ... SET daily_status = TAKEN WHERE
code_hash = %s AND medication_name = %s`) carries no condition on the
current status, so it overwrites a row whose status is PENDING — not the
expected prior status of the confirmed-taken transition — rather than
being a compare-and-swap no-op there.  So a row-level state transition
other than the daily reset IS a blind unconditional write. -/
theorem c1_counterexample :
    c1Row.daily_status = DailyStatus.PENDING
    ∧ takenWrite ("p1") ("statin") [c1Row]
        = [{ c1Row with daily_status := DailyStatus.TAKEN }]
    ∧ (medication_twiml_followup (some ("yes")) 0 ("p1") ("statin") ("10:00")
          [c1Row] [{ code_hash := "p1", medicationAdherence := [] }]).2.1
        = [{ c1Row with daily_status := DailyStatus.TAKEN }] := by decide

/-- C1 amended: the scheduler transitions are status-conditional — a
tick leaves any row untouched whose status is neither PENDING nor
REMINDED — but the confirmed-taken write is unconditional on status (it
sets TAKEN on a matching row whatever its current status), and the daily
reset is likewise unconditional. -/
theorem c1_amended_thm (now : Nat) (c ok : Bool) (r : Row) (ch med : String)
    (h1 : r.daily_status ≠ DailyStatus.PENDING)
    (h2 : r.daily_status ≠ DailyStatus.REMINDED) :
    tickRow now c ok r = r
    ∧ (r.code_hash = ch → r.medication_name = med →
        takenWrite ch med [r] = [{ r with daily_status := DailyStatus.TAKEN }])
    ∧ (reset_daily_reminders { reminders := [r], patients := [] }).reminders
        = [{ r with daily_status := DailyStatus.PENDING }] := by
  refine ⟨?_, ?_, rfl⟩
  · unfold tickRow dueForReminder dueForFollowup
    simp [h1, h2]
  · intro h3 h4
    unfold takenWrite
    simp [h3, h4]

/-- A row in a status the scheduler does not act on (TAKEN), used to
instantiate the amended C1. -/
def c1wRow : Row :=
  { id := 11, code_hash := "p1", medication_name := "statin",
    time := 600, followup_time := 610, phone_number := some ("5550000"),
    active := true, daily_status := DailyStatus.TAKEN,
    last_called := none }

/-- Witness for the amended C1 at a concrete TAKEN row. -/
theorem c1_amended_witness :
    tickRow 600 true true c1wRow = c1wRow
    ∧ takenWrite ("p1") ("statin") [c1wRow]
        = [{ c1wRow with daily_status := DailyStatus.TAKEN }] :=
  ⟨(c1_amended_thm 600 true true c1wRow ("p1") ("statin") (by decide)
      (by decide)).1,
   (c1_amended_thm 600 true true c1wRow ("p1") ("statin") (by decide)
      (by decide)).2.1 rfl rfl⟩


/-! ## C5 -/

/-- C5: under any sequence of scheduler scans a FOLLOWUP row stays
FOLLOWUP (no FOLLOWUP to REMINDED backward transition); a single scan
moves a row into FOLLOWUP only from REMINDED and only at the minute of
its `followup_time` (the anchor set 10 minutes after the scheduled time,
at which the reminder itself fires), on an active row with a phone; and
a PENDING row never reaches FOLLOWUP within one scan. -/
theorem c5_followup_transitions (ts : List TickIn) (now : Nat)
    (c ok : Bool) (r : Row) (rows : List Row)
    (h : (rows.map Row.id).Nodup) (i : Nat) :
    (statusAt rows i = some DailyStatus.FOLLOWUP →
      statusAt (runTicks ts rows) i = some DailyStatus.FOLLOWUP)
    ∧ ((tickRow now c ok r).daily_status = DailyStatus.FOLLOWUP →
        r.daily_status = DailyStatus.FOLLOWUP ∨
          (r.daily_status = DailyStatus.REMINDED ∧ r.followup_time = now
            ∧ r.active = true ∧ hasPhone r = true))
    ∧ (r.daily_status = DailyStatus.PENDING →
        (tickRow now c ok r).daily_status ≠ DailyStatus.FOLLOWUP) := by
  have key : (tickRow now c ok r).daily_status = DailyStatus.FOLLOWUP →
      r.daily_status = DailyStatus.FOLLOWUP ∨
        (r.daily_status = DailyStatus.REMINDED ∧ r.followup_time = now
          ∧ r.active = true ∧ hasPhone r = true) := by
    intro hF
    unfold tickRow at hF
    by_cases h1 : (c && ok && dueForReminder now r) = true
    · rw [if_pos h1] at hF
      exact absurd hF (by simp [remUpd])
    · rw [if_neg h1] at hF
      by_cases h2 : (c && ok && dueForFollowup now r) = true
      · right
        have hdf : dueForFollowup now r = true := by
          obtain ⟨-, hh⟩ := Bool.and_eq_true_iff.mp h2
          exact hh
        unfold dueForFollowup at hdf
        obtain ⟨⟨⟨ha, ht⟩, hp⟩, hs⟩ :
            ((r.active = true ∧ (r.followup_time == now) = true)
              ∧ hasPhone r = true)
            ∧ (r.daily_status == DailyStatus.REMINDED) = true := by
          simpa using hdf
        exact ⟨by simpa using hs, by simpa using ht, ha, hp⟩
      · rw [if_neg h2] at hF
        left
        exact hF
  refine ⟨runTicks_followup_fixed ts rows h i, key, ?_⟩
  intro hP hF
  rcases key hF with h3 | ⟨h3, -⟩ <;> rw [hP] at h3 <;>
    exact DailyStatus.noConfusion h3

/-- A concrete FOLLOWUP row for the C5 witness. -/
def c5Row : Row :=
  { id := 7, code_hash := "p5", medication_name := "metformin",
    time := 540, followup_time := 550, phone_number := some ("5550005"),
    active := true, daily_status := DailyStatus.FOLLOWUP,
    last_called := some 540 }

/-- A concrete two-scan schedule for the C5 witness. -/
def c5Ticks : List TickIn :=
  [{ now := 550, creds := true, ok := fun _ => true },
   { now := 551, creds := true, ok := fun _ => true }]

/-- Witness for C5: a FOLLOWUP row stays FOLLOWUP across two concrete
scans. -/
theorem c5_followup_transitions_witness :
    statusAt (runTicks c5Ticks [c5Row]) 7 = some DailyStatus.FOLLOWUP :=
  (c5_followup_transitions c5Ticks 550 true true c5Row [c5Row]
      (by decide) 7).1 (by decide)


/-! ## C2 -/

/-- An active PENDING row due at minute 540, used against the worker
scan. -/
def c2Row : Row :=
  { id := 1, code_hash := "p2", medication_name := "aspirin",
    time := 540, followup_time := 550, phone_number := some ("5550002"),
    active := true, daily_status := DailyStatus.PENDING,
    last_called := none }

/-- C2 is false as stated for the push path: the worker scan
`AlarmWorker.check_and_send_alarms` selects due rows with no
`daily_status` gate and performs no status write, so running it twice
within the same minute selects — and pushes for — the same row twice. -/
theorem c2_counterexample :
    (check_and_send_alarms 540 [c2Row]).1 = [("p2", "aspirin", 540)]
    ∧ (check_and_send_alarms 540 ((check_and_send_alarms 540 [c2Row]).2)).1
        = [("p2", "aspirin", 540)]
    ∧ statusAt (check_and_send_alarms 540 [c2Row]).2 1
        = some DailyStatus.PENDING := by decide

/-- C2 amended: for the `check_and_call_alarms` scan the claim holds —
after one scan in which every due reminder call went through, no row is
still due for a reminder at that minute, so an immediate second scan
selects nothing and fires no duplicate call or push; the separate
`AlarmWorker` push scan, however, is not status-gated and never writes
status, so it repeats its pushes when run twice in the same minute. -/
theorem c2_amended_thm (now : Nat) (rows : List Row)
    (h : (rows.map Row.id).Nodup) :
    (check_and_call_alarms now true (fun _ => true) rows).filter
        (dueForReminder now) = []
    ∧ (check_and_send_alarms now rows).2 = rows := by
  refine ⟨?_, rfl⟩
  rw [check_and_call_eq_map now true (fun _ => true) rows h]
  rw [List.filter_eq_nil_iff]
  intro b hb
  obtain ⟨r, -, rfl⟩ := List.mem_map.mp hb
  have : dueForReminder now (tickRow now true true r) = false := by
    unfold tickRow
    by_cases h1 : (true && true && dueForReminder now r) = true
    · rw [if_pos h1]
      unfold dueForReminder remUpd
      simp
    · rw [if_neg h1]
      by_cases h2 : (true && true && dueForFollowup now r) = true
      · rw [if_pos h2]
        unfold dueForReminder folUpd
        simp
      · rw [if_neg h2]
        simpa using h1
  simp [this]

/-- Witness for the amended C2: one concrete scan empties the due set of
its own minute. -/
theorem c2_amended_witness :
    (check_and_call_alarms 540 true (fun _ => true) [c2Row]).filter
        (dueForReminder 540) = [] :=
  (c2_amended_thm 540 [c2Row] (by decide)).1

/-! ## C3 -/

/-- An active PENDING row at its scheduled minute whose phone number is
the empty string (as stored by `add_alarm` when the patient profile has
no `phoneNumber`). -/
def c3Row : Row :=
  { id := 3, code_hash := "p3", medication_name := "donepezil",
    time := 540, followup_time := 550, phone_number := some (""),
    active := true, daily_status := DailyStatus.PENDING,
    last_called := none }

/-- C3 is false as stated: the reminder query of `check_and_call_alarms`
requires a non-empty phone number, so at its scheduled minute a
phone-less row is not selected at all — it stays PENDING (no
PENDING to REMINDED transition) and no push is sent from that scan. -/
theorem c3_counterexample :
    hasPhone c3Row = false
    ∧ check_and_call_alarms 540 true (fun _ => true) [c3Row] = [c3Row]
    ∧ statusAt (check_and_call_alarms 540 true (fun _ => true) [c3Row]) 3
        = some DailyStatus.PENDING
    ∧ [c3Row].filter (dueForReminder 540) = [] := by decide

/-- C3 amended: a row without a usable phone number is skipped entirely
by `check_and_call_alarms` — it is due for neither query and a scan
leaves it unchanged, so channel availability gates the whole transition,
not just the call; the push-only degraded mode exists only through the
separate `AlarmWorker` scan, which selects active due rows regardless of
their phone number. -/
theorem c3_amended_thm (now : Nat) (c ok : Bool) (r : Row)
    (rows : List Row) (hp : hasPhone r = false) :
    tickRow now c ok r = r
    ∧ dueForReminder now r = false
    ∧ dueForFollowup now r = false
    ∧ (r.active = true → r.time = now → r ∈ rows →
        (r.code_hash, r.medication_name, r.time)
          ∈ (check_and_send_alarms now rows).1) := by
  have hdr : dueForReminder now r = false := by
    unfold dueForReminder
    simp [hp]
  have hdf : dueForFollowup now r = false := by
    unfold dueForFollowup
    simp [hp]
  refine ⟨?_, hdr, hdf, ?_⟩
  · unfold tickRow
    simp [hdr, hdf]
  · intro ha ht hm
    unfold check_and_send_alarms
    apply List.mem_dedup.mpr
    apply List.mem_map.mpr
    refine ⟨r, ?_, rfl⟩
    apply List.mem_filter.mpr
    exact ⟨hm, by simp [ha, ht]⟩

/-- Witness for the amended C3 at the concrete phone-less row: the scan
leaves it alone while the worker scan still selects it for a push. -/
theorem c3_amended_witness :
    tickRow 540 true true c3Row = c3Row
    ∧ ("p3", "donepezil", 540) ∈ (check_and_send_alarms 540 [c3Row]).1 :=
  ⟨(c3_amended_thm 540 true true c3Row [c3Row] (by decide)).1,
   (c3_amended_thm 540 true true c3Row [c3Row] (by decide)).2.2.2
     rfl rfl (by decide)⟩

/-! ## C8 -/

/-- C8: with unique row ids, a scan equals the independent per-row
application of `tickRow` with the call outcome of that row alone — so a
failed call attempt for one row has no effect on how the remaining due rows
are processed — and a row whose call attempt failed is left completely
unchanged, its status intact, so the same guard selects it again at the
next scan of a matching minute.  (The `logger.error` in the per-alarm
`except` is a pure log, outside the state model.) -/
theorem c8_fire_and_continue (now : Nat) (c : Bool) (ok : Nat → Bool)
    (rows : List Row) (h : (rows.map Row.id).Nodup) :
    check_and_call_alarms now c ok rows
      = rows.map (fun r => tickRow now c (ok r.id) r)
    ∧ (∀ (n : Nat) (b : Bool) (r : Row), tickRow n b false r = r) :=
  ⟨check_and_call_eq_map now c ok rows h,
   fun n b r => tickRow_failed n b r⟩

/-- Call-outcome oracle for the C8 witness: the call to the row with
id 1 fails, every other call succeeds. -/
def c8ok : Nat → Bool := fun i => i != 1

/-- Two due rows for the C8 witness. -/
def c8Rows : List Row :=
  [{ id := 1, code_hash := "p8", medication_name := "a",
     time := 540, followup_time := 550, phone_number := some ("5550008"),
     active := true, daily_status := DailyStatus.PENDING,
     last_called := none },
   { id := 2, code_hash := "q8", medication_name := "b",
     time := 540, followup_time := 550, phone_number := some ("5550009"),
     active := true, daily_status := DailyStatus.PENDING,
     last_called := none }]

/-- Witness for C8: with the id-1 call failing, the scan still
processes the id-2 row (which becomes REMINDED) and leaves the id-1 row
unchanged and still due. -/
theorem c8_fire_and_continue_witness :
    check_and_call_alarms 540 true c8ok c8Rows
      = c8Rows.map (fun r => tickRow 540 true (c8ok r.id) r)
    ∧ statusAt (check_and_call_alarms 540 true c8ok c8Rows) 1
        = some DailyStatus.PENDING
    ∧ statusAt (check_and_call_alarms 540 true c8ok c8Rows) 2
        = some DailyStatus.REMINDED :=
  ⟨(c8_fire_and_continue 540 true c8ok c8Rows (by decide)).1,
   by decide, by decide⟩


/-! ## C6 -/

/-- C6 is false in one detail: the LLM answer is stripped and
lowercased before the three-label membership test, so an LLM response
that is not exactly one of the three allowed labels — here the
capitalised response Yes — still yields confirmed rather than unclear.
The keyword tier misses the utterance (both any-checks are false), so
the LLM tier decides. -/
theorem c6_counterexample :
    understand_response (some ("Yes")) ("hmm maybe possibly") = Interp.yes
    ∧ ¬("Yes" = "yes" ∨ "Yes" = "no" ∨ "Yes" = "unclear")
    ∧ yes_keywords.any
        (fun w => isSubstring w (strTrim (strLower ("hmm maybe possibly"))))
        = false
    ∧ no_keywords.any
        (fun w => isSubstring w (strTrim (strLower ("hmm maybe possibly"))))
        = false := by decide

/-- C6 amended: the interpreter first does a case-insensitive keyword
match on the lowercased, stripped utterance, affirmative vocabulary
before negative, first match wins, and the result then does not depend
on the LLM at all; only if no keyword matches is the LLM consulted, and
if the LLM response — after stripping whitespace and lowercasing — is
not exactly one of the three allowed labels (or no LLM answer is
available), the result is unclear. -/
theorem c6_amended_thm (g g2 : Option String) (ans s : String)
    (hne : s ≠ "") :
    (yes_keywords.any (fun w => isSubstring w (strTrim (strLower s))) = true →
      understand_response g s = Interp.yes
      ∧ understand_response g s = understand_response g2 s)
    ∧ (yes_keywords.any (fun w => isSubstring w (strTrim (strLower s))) = false →
       no_keywords.any (fun w => isSubstring w (strTrim (strLower s))) = true →
      understand_response g s = Interp.no
      ∧ understand_response g s = understand_response g2 s)
    ∧ (yes_keywords.any (fun w => isSubstring w (strTrim (strLower s))) = false →
       no_keywords.any (fun w => isSubstring w (strTrim (strLower s))) = false →
      (strLower (strTrim ans) ≠ "yes" → strLower (strTrim ans) ≠ "no" →
        strLower (strTrim ans) ≠ "unclear" →
        understand_response (some ans) s = Interp.unclear)
      ∧ understand_response none s = Interp.unclear) := by
  refine ⟨?_, ?_, ?_⟩
  · intro hy
    exact ⟨by simp [understand_response, hne, hy],
           by simp [understand_response, hne, hy]⟩
  · intro hy hno
    exact ⟨by simp [understand_response, hne, hy, hno],
           by simp [understand_response, hne, hy, hno]⟩
  · intro hy hno
    constructor
    · intro h1 h2 h3
      simp [understand_response, hne, hy, hno, h1, h2, h3]
    · simp [understand_response, hne, hy, hno]

/-- Witness for the amended C6: a keyword hit decides without the LLM,
and a non-label LLM answer yields unclear. -/
theorem c6_amended_witness :
    understand_response (some ("whatever")) ("yeah sure thing") = Interp.yes
    ∧ understand_response (some ("gibberish")) ("hmm maybe possibly")
        = Interp.unclear :=
  ⟨((c6_amended_thm (some ("whatever")) none ("x") ("yeah sure thing")
      (by decide)).1 (by decide)).1,
   ((c6_amended_thm (some ("gibberish")) none ("gibberish")
      ("hmm maybe possibly") (by decide)).2.2 (by decide) (by decide)).1
      (by decide) (by decide) (by decide)⟩

/-! ## C7 -/

/-- Inversion for the re-prompt action of the follow-up webhook: the
handler answers `reprompt k` only when the utterance matched neither
word list, the retry counter was still below 2, and the re-prompt
carries `retry + 1`. -/
theorem twiml_reprompt_inv (sr : Option String) (retry : Nat)
    (ch med t : String) (rows : List Row) (pats : List Patient) (k : Nat)
    (h : (medication_twiml_followup sr retry ch med t rows pats).1
        = TwimlAction.reprompt k) :
    retry < 2 ∧ k = retry + 1 := by
  cases sr with
  | none => simp [medication_twiml_followup] at h
  | some s =>
      by_cases h0 : s = ""
      · simp [medication_twiml_followup, h0] at h
      · by_cases hy : twimlIsYes (strLower s) = true
        · cases hf : pats.find? fun p => p.code_hash == ch with
          | some p =>
              simp [medication_twiml_followup, h0, hy, twimlTakenBranch,
                hf] at h
          | none =>
              simp [medication_twiml_followup, h0, hy, twimlTakenBranch,
                hf] at h
        · by_cases hno : twimlIsNo (strLower s) = true
          · simp [medication_twiml_followup, h0, hy, hno] at h
          · by_cases hr : retry < 2
            · simp only [medication_twiml_followup, h0, hy, hno, hr] at h
              refine ⟨hr, ?_⟩
              simp [medication_twiml_followup, h0, hy, hno, hr] at h
              omega
            · simp [medication_twiml_followup, h0, hy, hno, hr] at h

/-- Driving the follow-up webhook from any retry value produces at most
`2 - retry` re-prompts. -/
theorem countReprompts_le (us : List String) :
    ∀ retry, countReprompts retry us ≤ 2 - retry := by
  induction us with
  | nil => intro retry; simp [countReprompts]
  | cons s rest ih =>
      intro retry
      unfold countReprompts
      cases hact : (medication_twiml_followup (some s) retry ("") ("")
          ("") [] []).1 with
      | reprompt k =>
          show 1 + countReprompts k rest ≤ 2 - retry
          obtain ⟨h2, hk⟩ :=
            twiml_reprompt_inv (some s) retry ("") ("") ("") [] [] k hact
          have := ih k
          omega
      | sayTaken => show (0 : Nat) ≤ 2 - retry; simp
      | sayDeclined => show (0 : Nat) ≤ 2 - retry; simp
      | endSilent => show (0 : Nat) ≤ 2 - retry; simp
      | promptInitial => show (0 : Nat) ≤ 2 - retry; simp

/-- C7: a non-affirmative utterance (declined or unclear) never changes
the reminder rows or the patients table, so the dose keeps its pre-call
status and never advances to TAKEN; a re-prompt is issued only while the
retry counter is below 2 and increments it; once the budget is
exhausted an unclear utterance ends the call with an empty response;
and any chain of utterances starting at retry 0 produces at most 2
re-prompts. -/
theorem c7_unclear_bounded (s : String) (retry : Nat) (ch med t : String)
    (rows : List Row) (pats : List Patient) (us : List String) :
    (twimlIsYes (strLower s) = false →
      (medication_twiml_followup (some s) retry ch med t rows pats).2.1 = rows
      ∧ (medication_twiml_followup (some s) retry ch med t rows pats).2.2
          = pats)
    ∧ (∀ k, (medication_twiml_followup (some s) retry ch med t rows pats).1
          = TwimlAction.reprompt k → retry < 2 ∧ k = retry + 1)
    ∧ (s ≠ "" → twimlIsYes (strLower s) = false →
        twimlIsNo (strLower s) = false → 2 ≤ retry →
        (medication_twiml_followup (some s) retry ch med t rows pats).1
          = TwimlAction.endSilent)
    ∧ countReprompts 0 us ≤ 2 := by
  refine ⟨?_, ?_, ?_, by simpa using countReprompts_le us 0⟩
  · intro hy
    by_cases h0 : s = ""
    · simp [medication_twiml_followup, h0]
    · by_cases hno : twimlIsNo (strLower s) = true
      · simp [medication_twiml_followup, h0, hy, hno]
      · by_cases hr : retry < 2
        · simp [medication_twiml_followup, h0, hy, hno, hr]
        · simp [medication_twiml_followup, h0, hy, hno, hr]
  · intro k hk
    exact twiml_reprompt_inv (some s) retry ch med t rows pats k hk
  · intro h0 hy hno hr
    have hr2 : ¬ retry < 2 := by omega
    simp [medication_twiml_followup, h0, hy, hno, hr2]

/-- Witness for C7: a third unintelligible answer (retry counter 2)
ends the call silently, and three unclear utterances from retry 0 yield
at most 2 re-prompts. -/
theorem c7_unclear_bounded_witness :
    (medication_twiml_followup (some ("banana")) 2 ("p7") ("m7")
        ("09:00") [] []).1 = TwimlAction.endSilent
    ∧ countReprompts 0 [("banana"), ("banana"), ("banana")] ≤ 2 :=
  ⟨(c7_unclear_bounded ("banana") 2 ("p7") ("m7") ("09:00") [] []
      []).2.2.1 (by decide) (by decide) (by decide) (by decide),
   (c7_unclear_bounded ("banana") 0 ("p7") ("m7") ("09:00") [] []
      [("banana"), ("banana"), ("banana")]).2.2.2⟩

/-! ## C10 -/

/-- C10: when the follow-up webhook classifies the utterance as
affirmative and the patient exists, the TAKEN write lands on every
reminder row whose `code_hash` and `medication_name` match — whatever
the current `daily_status` and scheduled time of the row — and leaves every
other row unchanged. -/
theorem c10_taken_updates_all_matching (sp : String) (retry : Nat)
    (ch med t : String) (rows : List Row) (pats : List Patient) (i : Nat)
    (hs : sp ≠ "") (hy : twimlIsYes (strLower sp) = true)
    (hp : (pats.find? fun p => p.code_hash == ch).isSome = true) :
    ((medication_twiml_followup (some sp) retry ch med t rows pats).2.1).get? i
      = (rows.get? i).map fun r =>
          if r.code_hash == ch && r.medication_name == med then
            { r with daily_status := DailyStatus.TAKEN }
          else r := by
  obtain ⟨p, hf⟩ := Option.isSome_iff_exists.mp hp
  have hrw : (medication_twiml_followup (some sp) retry ch med t rows
      pats).2.1 = takenWrite ch med rows := by
    simp [medication_twiml_followup, hs, hy, twimlTakenBranch, hf]
  rw [hrw]
  unfold takenWrite
  simp

/-- Rows of one patient for the C10 witness: two doses of the same
medication at different times and in different statuses, plus one other
medication. -/
def c10Rows : List Row :=
  [{ id := 21, code_hash := "pX", medication_name := "mX",
     time := 540, followup_time := 550, phone_number := some ("5550010"),
     active := true, daily_status := DailyStatus.PENDING,
     last_called := none },
   { id := 22, code_hash := "pX", medication_name := "mX",
     time := 720, followup_time := 730, phone_number := some ("5550010"),
     active := true, daily_status := DailyStatus.FOLLOWUP,
     last_called := some 720 },
   { id := 23, code_hash := "pX", medication_name := "other",
     time := 600, followup_time := 610, phone_number := some ("5550010"),
     active := true, daily_status := DailyStatus.REMINDED,
     last_called := some 600 }]

/-- The patients table for the C10 witness. -/
def c10Pats : List Patient :=
  [{ code_hash := "pX", medicationAdherence := [] }]

/-- Witness for C10 at the second matching row (index 1), which was in
status FOLLOWUP at a different scheduled time than the call. -/
theorem c10_taken_updates_all_matching_witness :
    ((medication_twiml_followup (some ("yes")) 0 ("pX") ("mX") ("09:00")
        c10Rows c10Pats).2.1).get? 1
      = (c10Rows.get? 1).map (fun r =>
          if r.code_hash == ("pX") && r.medication_name == ("mX") then
            { r with daily_status := DailyStatus.TAKEN }
          else r) :=
  c10_taken_updates_all_matching ("yes") 0 ("pX") ("mX") ("09:00")
    c10Rows c10Pats 1 (by decide) (by decide) (by decide)

end LoveUAD
